import Mathlib

/-!
Shallow embedding of `src/deploy.sh`, the blue-green deployment script
(`facial-recognition` project).  The script manipulates two docker-compose
stacks (`facial-recognition-blue`, `facial-recognition-green`), an nginx
router, and a postgres database.  We model:

  * `SysState` — the externally visible state the script mutates: which
    stack networks exist (`docker network ls`), which stacks have running
    containers, which stacks have volumes, and the routing target named in
    the nginx configuration file (which the script never edits).
  * `Oracle` — the observations the script makes of the outside world:
    the service statuses shown by `docker-compose ps` at each polling
    attempt, and the outcomes of the two `curl` probes.
  * `Event` — the side-effecting / probing commands the script executes,
    in order, so temporal claims become claims about traces.

Each shell function becomes a Lean function of the same name.
-/

namespace BG

/-- The two stacks (deployment slots): `facial-recognition-blue` and
`facial-recognition-green`. -/
inductive Slot
  | blue
  | green
deriving DecidableEq

/-- Health status of one service as shown in the `State` column of
`docker-compose ps`. -/
inductive ServiceState
  | healthy
  | unhealthy
  | starting
  | upNoCheck
  | exited
deriving DecidableEq

/-- The text docker-compose prints for each service state
(the `State` column of `docker-compose ps`). -/
def renderState : ServiceState → String
  | .healthy => "Up (healthy)"
  | .unhealthy => "Up (unhealthy)"
  | .starting => "Up (health: starting)"
  | .upNoCheck => "Up"
  | .exited => "Exit 1"

/-- Predicate `isPrefixL p s`: the character list `p` is a prefix of `s`. -/
def isPrefixL : List Char → List Char → Bool
  | [], _ => true
  | _ :: _, [] => false
  | p :: ps, c :: cs => p == c && isPrefixL ps cs

/-- Predicate `containsSub pat s`: the character list `pat` occurs contiguously
inside `s` (what `grep` matching a fixed string on one line does). -/
def containsSub : List Char → List Char → Bool
  | pat, [] => pat.isEmpty
  | pat, c :: rest => isPrefixL pat (c :: rest) || containsSub pat rest

/-- The check `grep -q "healthy"` over the lines of `docker-compose ps` output:
true when any line contains the substring `healthy`
(deploy.sh line 113: `docker-compose -f "$COMPOSE_FILE" ps | grep -q "healthy"`). -/
def grepHealthy (lines : List String) : Bool :=
  lines.any fun l => containsSub "healthy".toList l.toList

/-- One polling attempt of the health-wait loop: render the service
states the way `docker-compose ps` prints them and run
`grep -q "healthy"` over the result. -/
def healthCheckPasses (svcs : List ServiceState) : Bool :=
  grepHealthy (svcs.map renderState)

/-- Number of services actually reporting healthy in a
`docker-compose ps` listing. -/
def healthyCount (svcs : List ServiceState) : Nat :=
  (svcs.filter (· == ServiceState.healthy)).length

/-- Total number of services in a `docker-compose ps` listing. -/
def totalServices (svcs : List ServiceState) : Nat :=
  svcs.length

/-- Observations the script makes of the outside world during one run:
`ps n` is the service listing seen by the n-th polling attempt
(1-indexed), `curlDeployOk` the outcome of the in-deploy health curl
(deploy.sh line 135), `curlVerifyOk` the outcome of the post-cutover
verification curl (deploy.sh line 226). -/
structure Oracle where
  ps : Nat → List ServiceState
  curlDeployOk : Bool
  curlVerifyOk : Bool

/-- The health-wait loop of `deploy_to_stack` (deploy.sh lines 109-127):
`attempt` starts at 1; each iteration passes when
`docker-compose ps | grep -q "healthy"` succeeds, fails for good when
`attempt` reaches `maxAttempts` (60), and otherwise sleeps 10s and
retries.  `fuel` bounds the recursion; it is called with
`fuel = maxAttempts` so the fuel never runs out before the
`attempt == maxAttempts` exit. -/
def healthLoopAux (o : Oracle) (maxAttempts : Nat) : Nat → Nat → Bool
  | _, 0 => false
  | attempt, fuel + 1 =>
    if healthCheckPasses (o.ps attempt) then true
    else if attempt = maxAttempts then false
    else healthLoopAux o maxAttempts (attempt + 1) fuel

/-- The full health wait with the script's constants:
`max_attempts=60`, starting at `attempt=1`. -/
def waitForHealthy (o : Oracle) : Bool :=
  healthLoopAux o 60 1 60

/-- External state mutated by the script: for each stack whether its
docker network exists, whether its containers are up, whether its
volumes exist; plus the upstream slot named by the nginx configuration
file.  The script never writes the nginx configuration file, so no
function below changes `nginxConf`. -/
structure SysState where
  blueNetwork : Bool
  greenNetwork : Bool
  blueUp : Bool
  greenUp : Bool
  blueVolumes : Bool
  greenVolumes : Bool
  nginxConf : Option Slot
deriving DecidableEq

/-- Side-effecting / probing commands the script executes, recorded in
order as a trace. -/
inductive Event
  | pull (s : Slot)
  | upDetached (s : Slot)
  | migrate (s : Slot)
  | curlHealth (ok : Bool)
  | switchTraffic (target : Slot)
  | composeDown (s : Slot)
  | composeDownVolumes (s : Slot)
  | pgDump (target : Slot) (ok : Bool)
  | curlVerify (ok : Bool)
deriving DecidableEq

/-- Whether the event is an invocation of `switch_traffic`. -/
def Event.isSwitch : Event → Bool
  | .switchTraffic _ => true
  | _ => false

/-- Effect of `docker-compose up -d` for a stack: its network,
containers and volumes come into existence. -/
def upStack : Slot → SysState → SysState
  | .blue, st => { st with blueNetwork := true, blueUp := true, blueVolumes := true }
  | .green, st => { st with greenNetwork := true, greenUp := true, greenVolumes := true }

/-- Effect of `docker-compose down` for a stack: containers and network
are removed; volumes are removed only when `--volumes` is passed. -/
def downStack (removeVolumes : Bool) : Slot → SysState → SysState
  | .blue, st =>
    { st with blueNetwork := false, blueUp := false,
              blueVolumes := if removeVolumes then false else st.blueVolumes }
  | .green, st =>
    { st with greenNetwork := false, greenUp := false,
              greenVolumes := if removeVolumes then false else st.greenVolumes }

/-- Per-slot view of a state: (network exists, containers up, volumes
exist). -/
def slotView (s : Slot) (st : SysState) : Bool × Bool × Bool :=
  match s with
  | .blue => (st.blueNetwork, st.blueUp, st.blueVolumes)
  | .green => (st.greenNetwork, st.greenUp, st.greenVolumes)

/-- Containers of slot `s` running in state `st`. -/
def slotUp (s : Slot) (st : SysState) : Bool :=
  match s with
  | .blue => st.blueUp
  | .green => st.greenUp

/-- Volumes of slot `s` present in state `st`. -/
def slotVolumes (s : Slot) (st : SysState) : Bool :=
  match s with
  | .blue => st.blueVolumes
  | .green => st.greenVolumes

/-- Function `get_active_stack` (deploy.sh lines 70-79): grep `docker network ls`
for the blue stack name first, then the green stack name; report the
first match, empty when neither network exists.  It reads only the
network list — never the routing configuration. -/
def get_active_stack (st : SysState) : Option Slot :=
  if st.blueNetwork then some Slot.blue
  else if st.greenNetwork then some Slot.green
  else none

/-- Function `get_inactive_stack` (deploy.sh lines 82-89): green when the active
stack is blue, blue in every other case (green active, or no active
stack at all — the bootstrap default). -/
def get_inactive_stack (st : SysState) : Slot :=
  if get_active_stack st = some Slot.blue then Slot.green else Slot.blue

/-- The spec's abstract slot identifiers A/B are fixed by its only
asymmetric statement — bootstrap defaults to slot B — matched against
the code's bootstrap default (blue): slot B is the blue stack. -/
def slotB : Slot := Slot.blue

/-- The spec's slot A is then the green stack. -/
def slotA : Slot := Slot.green

/-- Function `deploy_to_stack` (deploy.sh lines 92-141): pull images, start the
stack detached, run the health-wait loop; on timeout return failure
(the old stack and routing are not touched).  Otherwise run the
migration (`|| true`, so always proceeds) and the in-deploy curl health
check; return failure when the curl fails.  Result: (success flag,
new state, trace of commands executed). -/
def deploy_to_stack (o : Oracle) (s : Slot) (st : SysState) :
    Bool × SysState × List Event :=
  let st1 := upStack s st
  if waitForHealthy o then
    if o.curlDeployOk then
      (true, st1, [Event.pull s, Event.upDetached s, Event.migrate s,
                   Event.curlHealth true])
    else
      (false, st1, [Event.pull s, Event.upDetached s, Event.migrate s,
                    Event.curlHealth false])
  else
    (false, st1, [Event.pull s, Event.upDetached s])

/-- Function `switch_traffic` (deploy.sh lines 144-153): its only command is
`docker-compose exec nginx nginx -s reload`.  The nginx configuration
file is never modified by the script, so the reload re-reads the prior
configuration and `nginxConf` is unchanged; the event records the
invocation and its intended target. -/
def switch_traffic (s : Slot) (st : SysState) : SysState × List Event :=
  (st, [Event.switchTraffic s])

/-- Function `cleanup_old_stack` (deploy.sh lines 156-164):
`docker-compose down --volumes` on the old stack. -/
def cleanup_old_stack (s : Slot) (st : SysState) : SysState × List Event :=
  (downStack true s st, [Event.composeDownVolumes s])

/-- Function `create_backup` (deploy.sh lines 167-177): runs
`docker exec "${BLUE_STACK}_postgres_1" pg_dump ... || true` — the dump
container is always the blue stack's postgres, and it succeeds exactly
when the blue stack is up; failure is swallowed by `|| true`, so the
state is unchanged and the function always returns. -/
def create_backup (st : SysState) : SysState × List Event :=
  (st, [Event.pgDump Slot.blue st.blueUp])

/-- Function `rollback` (deploy.sh lines 180-194): switch traffic back to
`prev`, then `docker-compose down` (without `--volumes`) on `cur`. -/
def rollback (cur prev : Slot) (st : SysState) : SysState × List Event :=
  let r1 := switch_traffic prev st
  (downStack false cur r1.1, r1.2 ++ [Event.composeDown cur])

/-- Function `deploy` (deploy.sh lines 197-244): discover active and inactive
stacks; back up if an active stack exists; deploy to the inactive
stack, exiting 1 on failure; switch traffic; sleep 30; verify with
curl; on success clean up the old stack (if any) and exit 0; on
verification failure roll back (if an old stack exists) and exit 1.
Result: (exit code, final state, trace). -/
def deploy (o : Oracle) (st : SysState) : Nat × SysState × List Event :=
  let active := get_active_stack st
  let inactive := get_inactive_stack st
  let b := if active.isSome then create_backup st else (st, ([] : List Event))
  let d := deploy_to_stack o inactive b.1
  if d.1 then
    let sw := switch_traffic inactive d.2.1
    if o.curlVerifyOk then
      match active with
      | some a =>
        let c := cleanup_old_stack a sw.1
        (0, c.1, b.2 ++ d.2.2 ++ sw.2 ++ [Event.curlVerify true] ++ c.2)
      | none =>
        (0, sw.1, b.2 ++ d.2.2 ++ sw.2 ++ [Event.curlVerify true])
    else
      match active with
      | some a =>
        let r := rollback inactive a sw.1
        (1, r.1, b.2 ++ d.2.2 ++ sw.2 ++ [Event.curlVerify false] ++ r.2)
      | none =>
        (1, sw.1, b.2 ++ d.2.2 ++ sw.2 ++ [Event.curlVerify false])
  else
    (1, d.2.1, b.2 ++ d.2.2)

/-- A state with both stacks provisioned, routing at blue. -/
def bothUpBlueRouted : SysState :=
  { blueNetwork := true, greenNetwork := true, blueUp := true,
    greenUp := true, blueVolumes := true, greenVolumes := true,
    nginxConf := some Slot.blue }

/-- A state in which the green stack is active (blue network absent). -/
def greenActiveState : SysState :=
  { blueNetwork := false, greenNetwork := true, blueUp := false,
    greenUp := true, blueVolumes := false, greenVolumes := true,
    nginxConf := some Slot.green }

/-- The bootstrap state: neither network exists, nothing provisioned. -/
def bootstrapState : SysState :=
  { blueNetwork := false, greenNetwork := false, blueUp := false,
    greenUp := false, blueVolumes := false, greenVolumes := false,
    nginxConf := none }

/-- An oracle whose polled services never report healthy. -/
def stuckOracle : Oracle :=
  { ps := fun _ => [ServiceState.starting], curlDeployOk := true,
    curlVerifyOk := true }

/-- An oracle for a run where polling passes at once and both curls
succeed. -/
def happyOracle : Oracle :=
  { ps := fun _ => [ServiceState.healthy, ServiceState.healthy],
    curlDeployOk := true, curlVerifyOk := true }

/-- An oracle where the stack comes up healthy but the post-cutover
verification fails. -/
def verifyFailOracle : Oracle :=
  { ps := fun _ => [ServiceState.healthy, ServiceState.healthy],
    curlDeployOk := true, curlVerifyOk := false }

/-- All `switch_traffic` invocations recorded in a trace. -/
def switchEvents (tr : List Event) : List Event :=
  tr.filter Event.isSwitch

/-- All stack-teardown commands (`docker-compose down`, with or without
`--volumes`) recorded in a trace. -/
def teardownEvents (tr : List Event) : List Event :=
  tr.filter fun e =>
    match e with
    | .composeDown _ => true
    | .composeDownVolumes _ => true
    | _ => false

/-- All volume-destroying teardown commands (`docker-compose down
--volumes`, the command of `cleanup_old_stack`) recorded in a trace. -/
def volumeCleanupEvents (tr : List Event) : List Event :=
  tr.filter fun e =>
    match e with
    | .composeDownVolumes _ => true
    | _ => false

/-- The slot reported active in `st` (if any) has the same network /
containers / volumes view in `st2` as in `st`. -/
def activeSlotUntouched (st st2 : SysState) : Prop :=
  match get_active_stack st with
  | some a => slotView a st2 = slotView a st
  | none => True

/- ------------------------------------------------------------------
Theorems
------------------------------------------------------------------ -/

/-- Helper: the slot a stack-up touches is the one brought up; any other
slot's view is unchanged. -/
theorem slotView_upStack_other (a s : Slot) (st : SysState) (h : a ≠ s) :
    slotView a (upStack s st) = slotView a st := by
  cases a <;> cases s <;> simp_all [slotView, upStack]

/-- Helper: bringing a stack up leaves its containers running. -/
theorem slotUp_upStack_self (s : Slot) (st : SysState) :
    slotUp s (upStack s st) = true := by
  cases s <;> simp [slotUp, upStack]

/-- Helper: bringing a stack up never writes the nginx configuration. -/
theorem nginxConf_upStack (s : Slot) (st : SysState) :
    (upStack s st).nginxConf = st.nginxConf := by
  cases s <;> rfl

/-- Helper: the inactive stack differs from the active one. -/
theorem inactive_ne_active (st : SysState) (a : Slot)
    (h : get_active_stack st = some a) : get_inactive_stack st ≠ a := by
  unfold get_inactive_stack
  by_cases hb : get_active_stack st = some Slot.blue
  · rw [hb] at h
    cases h
    simp [hb]
  · rw [h] at hb ⊢
    cases a
    · exact absurd rfl hb
    · simp [hb]

/-- Helper: if the health-wait condition fails at every attempt in
range, the loop returns failure. -/
theorem healthLoopAux_false (o : Oracle) (m : Nat) :
    ∀ fuel attempt,
      (∀ k, attempt ≤ k → k ≤ m → healthCheckPasses (o.ps k) = false) →
      attempt + fuel = m + 1 → healthLoopAux o m attempt fuel = false := by
  intro fuel
  induction fuel with
  | zero => intro attempt _ _; rfl
  | succ f ih =>
    intro attempt h hsum
    have h1 : healthCheckPasses (o.ps attempt) = false := by
      apply h attempt le_rfl
      omega
    unfold healthLoopAux
    rw [h1]
    by_cases he : attempt = m
    · simp [he]
    · simp only [Bool.false_eq_true, if_false, he, ite_false]
      apply ih
      · intro k hk1 hk2
        exact h k (by omega) hk2
      · omega

/-- Helper: the health wait fails when no attempt in 1..60 passes. -/
theorem waitForHealthy_false (o : Oracle)
    (h : ∀ n, 1 ≤ n → n ≤ 60 → healthCheckPasses (o.ps n) = false) :
    waitForHealthy o = false :=
  healthLoopAux_false o 60 60 1 h rfl

/-- C1: the claim says a polling attempt passes only when all expected
services are healthy, and never with zero healthy services.  The code's
check (`docker-compose ps | grep -q "healthy"`) passes on a listing
whose only service is `Up (unhealthy)` — zero healthy services — because
`healthy` is a substring of `unhealthy`; it also passes with one healthy
service out of two.  The whole 60-attempt wait therefore succeeds at
once against a stack with no healthy service. -/
theorem c1_health_check_passes_with_zero_healthy :
    healthCheckPasses [ServiceState.unhealthy] = true ∧
    healthyCount [ServiceState.unhealthy] = 0 ∧
    totalServices [ServiceState.unhealthy] = 1 ∧
    healthCheckPasses [ServiceState.healthy, ServiceState.starting] = true ∧
    healthyCount [ServiceState.healthy, ServiceState.starting] = 1 ∧
    totalServices [ServiceState.healthy, ServiceState.starting] = 2 ∧
    waitForHealthy
      { ps := fun _ => [ServiceState.unhealthy], curlDeployOk := true,
        curlVerifyOk := true } = true := by
  refine ⟨by decide, by decide, rfl, by decide, by decide, rfl, by decide⟩

/-- C2: the claim says cutover updates the routing configuration and
reloads it so the target slot serves subsequent connections, and does
not merely reload the prior configuration.  The code's `switch_traffic`
runs only `nginx -s reload` and never edits the configuration: with the
configuration pointing at blue, switching to green leaves the whole
state — in particular the routing target — exactly as it was. -/
theorem c2_switch_traffic_reloads_prior_config :
    (switch_traffic Slot.green bothUpBlueRouted).1 = bothUpBlueRouted ∧
    (switch_traffic Slot.green bothUpBlueRouted).1.nginxConf = some Slot.blue ∧
    (switch_traffic Slot.green bothUpBlueRouted).2 =
      [Event.switchTraffic Slot.green] ∧
    (∀ (s : Slot) (st : SysState), (switch_traffic s st).1 = st) :=
  ⟨rfl, rfl, rfl, fun _ _ => rfl⟩

/-- C5: every rollback run performs the traffic-restoration invocation
(targeting `prev`) strictly before the teardown of `cur`, and the
teardown is a `docker-compose down` without `--volumes`: `cur`'s
containers are stopped but its volumes survive. -/
theorem c5_rollback_restores_traffic_before_teardown
    (cur prev : Slot) (st : SysState) :
    (rollback cur prev st).2 =
      [Event.switchTraffic prev, Event.composeDown cur] ∧
    slotVolumes cur (rollback cur prev st).1 = slotVolumes cur st ∧
    slotUp cur (rollback cur prev st).1 = false ∧
    volumeCleanupEvents (rollback cur prev st).2 = [] := by
  refine ⟨rfl, ?_, ?_, rfl⟩
  · cases cur <;> simp [rollback, switch_traffic, downStack, slotVolumes]
  · cases cur <;> simp [rollback, switch_traffic, downStack, slotUp]

/-- C6: the claim says the backup snapshots the durable state of the
active slot, whichever it is.  The code's `create_backup` always runs
`pg_dump` in the blue stack's postgres container: with green active
(blue absent and not running), the dump still targets blue — and fails,
silently.  The dump container is the fixed blue slot for every state. -/
theorem c6_backup_targets_fixed_blue_slot :
    get_active_stack greenActiveState = some Slot.green ∧
    (create_backup greenActiveState).2 = [Event.pgDump Slot.blue false] ∧
    (∀ st : SysState,
      (create_backup st).2 = [Event.pgDump Slot.blue st.blueUp]) := by
  refine ⟨by decide, rfl, fun st => rfl⟩

/-- C10: active-slot discovery reports blue whenever the blue network
exists — whatever the green network, the container states and the
routing configuration say — reports green only when the blue network is
absent and the green one present, and reports nothing only when neither
network exists. -/
theorem c10_active_discovery_prefers_blue_network
    (g u v w x : Bool) (r1 r2 r3 : Option Slot) :
    get_active_stack
      { blueNetwork := true, greenNetwork := g, blueUp := u, greenUp := v,
        blueVolumes := w, greenVolumes := x, nginxConf := r1 } =
      some Slot.blue ∧
    get_active_stack
      { blueNetwork := false, greenNetwork := true, blueUp := u, greenUp := v,
        blueVolumes := w, greenVolumes := x, nginxConf := r2 } =
      some Slot.green ∧
    get_active_stack
      { blueNetwork := false, greenNetwork := false, blueUp := u, greenUp := v,
        blueVolumes := w, greenVolumes := x, nginxConf := r3 } = none := by
  refine ⟨rfl, rfl, rfl⟩

/-- C3: when no polling attempt in the 60-attempt window passes, deploy
exits 1, never invokes `switch_traffic` (routing configuration after
equals routing before), leaves the previously active slot's network,
containers and volumes untouched, and leaves the failed slot running
with no teardown command ever issued. -/
theorem c3_health_timeout_aborts (o : Oracle) (st : SysState)
    (h : ∀ n, 1 ≤ n → n ≤ 60 → healthCheckPasses (o.ps n) = false) :
    (deploy o st).1 = 1 ∧
    switchEvents (deploy o st).2.2 = [] ∧
    (deploy o st).2.1.nginxConf = st.nginxConf ∧
    slotUp (get_inactive_stack st) (deploy o st).2.1 = true ∧
    teardownEvents (deploy o st).2.2 = [] ∧
    activeSlotUntouched st (deploy o st).2.1 := by
  have hw : waitForHealthy o = false := waitForHealthy_false o h
  cases hA : get_active_stack st with
  | none =>
    refine ⟨?_, ?_, ?_, ?_, ?_, ?_⟩ <;>
      simp [deploy, deploy_to_stack, create_backup, hA, hw, switchEvents,
            teardownEvents, Event.isSwitch, nginxConf_upStack,
            slotUp_upStack_self, activeSlotUntouched]
  | some a =>
    refine ⟨?_, ?_, ?_, ?_, ?_, ?_⟩ <;>
      simp [deploy, deploy_to_stack, create_backup, hA, hw, switchEvents,
            teardownEvents, Event.isSwitch, nginxConf_upStack,
            slotUp_upStack_self, activeSlotUntouched,
            slotView_upStack_other a _ st
              (Ne.symm (inactive_ne_active st a hA))]

/-- Helper: the stuck oracle's listing never passes the grep check. -/
theorem stuckOracle_never_healthy (n : Nat) :
    healthCheckPasses (stuckOracle.ps n) = false := by
  show healthCheckPasses [ServiceState.starting] = false
  decide

/-- C3 witness: a stack stuck in `health: starting` for every attempt
against a state with green active: deploy aborts exactly as stated. -/
theorem c3_witness :
    healthCheckPasses (stuckOracle.ps 1) = false ∧
    ((deploy stuckOracle greenActiveState).1 = 1 ∧
     switchEvents (deploy stuckOracle greenActiveState).2.2 = [] ∧
     (deploy stuckOracle greenActiveState).2.1.nginxConf =
       greenActiveState.nginxConf ∧
     slotUp (get_inactive_stack greenActiveState)
       (deploy stuckOracle greenActiveState).2.1 = true ∧
     teardownEvents (deploy stuckOracle greenActiveState).2.2 = [] ∧
     activeSlotUntouched greenActiveState
       (deploy stuckOracle greenActiveState).2.1) :=
  ⟨stuckOracle_never_healthy 1,
   c3_health_timeout_aborts stuckOracle greenActiveState
     (fun n _ _ => stuckOracle_never_healthy n)⟩

/-- C4: in a deploy run that starts with an active slot, a
volume-destroying cleanup never happens when the verification curl
fails, and whenever the trace contains the cleanup of the previously
active slot, the trace ends with the successful verification probe
immediately followed by that cleanup — decommissioning happens only
after the post-cutover verification succeeded. -/
theorem c4_cleanup_only_after_verify (o : Oracle) (st : SysState) (a : Slot)
    (h : get_active_stack st = some a) :
    (o.curlVerifyOk = false → volumeCleanupEvents (deploy o st).2.2 = []) ∧
    (volumeCleanupEvents (deploy o st).2.2 ≠ [] →
      (deploy o st).2.2 =
        ((deploy o st).2.2).dropLast.dropLast ++
          [Event.curlVerify true, Event.composeDownVolumes a]) := by
  cases hW : waitForHealthy o <;> cases hC : o.curlDeployOk <;>
    cases hV : o.curlVerifyOk <;>
      simp [deploy, deploy_to_stack, create_backup, switch_traffic,
            cleanup_old_stack, rollback, downStack, h, hW, hC, hV,
            volumeCleanupEvents, List.dropLast]

/-- C4 witness: a fully successful run over green-active: cleanup did
happen, and the theorem's ordering equation holds for it. -/
theorem c4_witness :
    get_active_stack greenActiveState = some Slot.green ∧
    volumeCleanupEvents (deploy happyOracle greenActiveState).2.2 ≠ [] ∧
    ((happyOracle.curlVerifyOk = false →
        volumeCleanupEvents (deploy happyOracle greenActiveState).2.2 = []) ∧
     (volumeCleanupEvents (deploy happyOracle greenActiveState).2.2 ≠ [] →
        (deploy happyOracle greenActiveState).2.2 =
          ((deploy happyOracle greenActiveState).2.2).dropLast.dropLast ++
            [Event.curlVerify true, Event.composeDownVolumes Slot.green])) :=
  ⟨rfl, by decide,
   c4_cleanup_only_after_verify happyOracle greenActiveState Slot.green rfl⟩

/-- C7: in every deploy run that starts with an active slot, the backup
command runs (succeeding exactly when the blue stack is up) and — no
matter whether the dump succeeded or failed — the provisioning of the
inactive slot (`docker-compose up -d`) also runs: backup failure never
blocks the deployment. -/
theorem c7_backup_failure_never_blocks (o : Oracle) (st : SysState) (a : Slot)
    (h : get_active_stack st = some a) :
    Event.pgDump Slot.blue st.blueUp ∈ (deploy o st).2.2 ∧
    Event.upDetached (get_inactive_stack st) ∈ (deploy o st).2.2 := by
  cases hW : waitForHealthy o <;> cases hC : o.curlDeployOk <;>
    cases hV : o.curlVerifyOk <;>
      simp [deploy, deploy_to_stack, create_backup, switch_traffic,
            cleanup_old_stack, rollback, h, hW, hC, hV]

/-- C7 witness: with green active the blue postgres is not running, so
the dump fails — and the inactive slot is provisioned anyway. -/
theorem c7_witness :
    get_active_stack greenActiveState = some Slot.green ∧
    Event.pgDump Slot.blue false ∈ (deploy happyOracle greenActiveState).2.2 ∧
    Event.upDetached (get_inactive_stack greenActiveState) ∈
      (deploy happyOracle greenActiveState).2.2 :=
  ⟨rfl,
   (c7_backup_failure_never_blocks happyOracle greenActiveState Slot.green
      rfl).1,
   (c7_backup_failure_never_blocks happyOracle greenActiveState Slot.green
      rfl).2⟩

/-- C8: when discovery finds no active stack, the deploy target
resolves to the fixed bootstrap choice (the spec's slot B, the blue
stack), and the whole run issues no teardown command at all — in
particular no cleanup of a previous slot. -/
theorem c8_bootstrap_targets_slotB_no_cleanup (o : Oracle) (st : SysState)
    (h : get_active_stack st = none) :
    get_inactive_stack st = slotB ∧
    volumeCleanupEvents (deploy o st).2.2 = [] ∧
    teardownEvents (deploy o st).2.2 = [] := by
  constructor
  · simp [get_inactive_stack, h, slotB]
  · cases hW : waitForHealthy o <;> cases hC : o.curlDeployOk <;>
      cases hV : o.curlVerifyOk <;>
        simp [deploy, deploy_to_stack, create_backup, switch_traffic, h, hW,
              hC, hV, volumeCleanupEvents, teardownEvents]

/-- C8 witness: a successful bootstrap deploy (exit 0) targeting the
fixed slot, with no cleanup performed. -/
theorem c8_witness :
    get_active_stack bootstrapState = none ∧
    (deploy happyOracle bootstrapState).1 = 0 ∧
    (get_inactive_stack bootstrapState = slotB ∧
     volumeCleanupEvents (deploy happyOracle bootstrapState).2.2 = [] ∧
     teardownEvents (deploy happyOracle bootstrapState).2.2 = []) :=
  ⟨rfl, by decide,
   c8_bootstrap_targets_slotB_no_cleanup happyOracle bootstrapState rfl⟩

/-- C9: when deploy starts with no active slot, the in-slot deployment
succeeds, and the post-cutover verification fails, the run exits 1
without invoking rollback: no teardown command is issued, the newly
provisioned slot is left running, and the only `switch_traffic`
invocation of the whole run is the cutover to that slot — nothing is
reverted afterwards. -/
theorem c9_bootstrap_verify_fail_no_rollback (o : Oracle) (st : SysState)
    (h : get_active_stack st = none)
    (hd : (deploy_to_stack o (get_inactive_stack st) st).1 = true)
    (hv : o.curlVerifyOk = false) :
    (deploy o st).1 = 1 ∧
    teardownEvents (deploy o st).2.2 = [] ∧
    slotUp (get_inactive_stack st) (deploy o st).2.1 = true ∧
    switchEvents (deploy o st).2.2 =
      [Event.switchTraffic (get_inactive_stack st)] := by
  have hW : waitForHealthy o = true := by
    by_contra hc
    rw [Bool.not_eq_true] at hc
    simp [deploy_to_stack, hc] at hd
  have hC : o.curlDeployOk = true := by
    by_contra hc
    rw [Bool.not_eq_true] at hc
    simp [deploy_to_stack, hW, hc] at hd
  refine ⟨?_, ?_, ?_, ?_⟩ <;>
    simp [deploy, deploy_to_stack, create_backup, switch_traffic, h, hW, hC,
          hv, teardownEvents, switchEvents, Event.isSwitch,
          slotUp_upStack_self]

/-- C9 witness: bootstrap state, stack healthy at once, verification
curl fails: exit 1, nothing torn down, nothing reverted. -/
theorem c9_witness :
    get_active_stack bootstrapState = none ∧
    (deploy_to_stack verifyFailOracle (get_inactive_stack bootstrapState)
        bootstrapState).1 = true ∧
    verifyFailOracle.curlVerifyOk = false ∧
    ((deploy verifyFailOracle bootstrapState).1 = 1 ∧
     teardownEvents (deploy verifyFailOracle bootstrapState).2.2 = [] ∧
     slotUp (get_inactive_stack bootstrapState)
       (deploy verifyFailOracle bootstrapState).2.1 = true ∧
     switchEvents (deploy verifyFailOracle bootstrapState).2.2 =
       [Event.switchTraffic (get_inactive_stack bootstrapState)]) :=
  ⟨rfl, by decide, rfl,
   c9_bootstrap_verify_fail_no_rollback verifyFailOracle bootstrapState rfl
     (by decide) rfl⟩

end BG
